import Mathlib

/-!
# Verification of the `define-context` reducer/context library

Shallow embedding of the runtime behaviour of `src/index.tsx` (and the
`reduceModel` variant of `src/index.ts`).  JavaScript values are modelled by
the inductive `Value`; records are association lists of string keys (lookup
takes the first match, as JS property access does for its single binding per
key).  Falsiness and the nullish-coalescing operator `??` are modelled
explicitly.  React's `useReducer` state container is modelled as a left fold
of the pure reducer over the list of dispatched action events, which is the
synchronous, in-order semantics the container provides.
-/

/-- A JavaScript runtime value, as far as the library inspects one:
`null`, `undefined`, booleans, numbers (modelled as integers — the library
only ever adds and subtracts counters), strings, and objects as ordered
field lists.  (NaN and other exotic numerics never arise in this code.) -/
inductive Value : Type where
  | vnull : Value
  | vundef : Value
  | vbool : Bool → Value
  | vnum : Int → Value
  | vstr : String → Value
  | vobj : List (String × Value) → Value

/-- JavaScript truthiness: `null`, `undefined`, `false`, `0` and `""` are
falsy; every object (even `{}`) is truthy. -/
def truthy : Value → Bool
  | .vnull => false
  | .vundef => false
  | .vbool b => b
  | .vnum n => n != 0
  | .vstr s => s != ""
  | .vobj _ => true

/-- Loose nullish test (`v == null`) as used by `??` and `?.`: only `null`
and `undefined` are nullish. -/
def isNullish : Value → Bool
  | .vnull => true
  | .vundef => true
  | _ => false

/-- The JavaScript nullish-coalescing operator `a ?? b`. -/
def nullishCoalesce (a b : Value) : Value :=
  if isNullish a then b else a

/-- Property read on a field list: first binding wins. -/
def lookupField (fields : List (String × Value)) (k : String) : Option Value :=
  match fields with
  | [] => none
  | (k', v) :: rest => if k' = k then some v else lookupField rest k

/-- The field list produced by the spread-update `{...prev, [k]: v}`:
if `k` already occurs its binding is replaced in place, otherwise `(k, v)`
is appended at the end, matching JS insertion-order semantics. -/
def setField (fields : List (String × Value)) (k : String) (v : Value) :
    List (String × Value) :=
  if (lookupField fields k).isSome then
    fields.map (fun p => if p.1 = k then (k, v) else p)
  else
    fields ++ [(k, v)]

/-- The own enumerable fields contributed by spreading a value: an object
contributes its fields, `null`/`undefined` and the scalar primitives used by
this library contribute none. -/
def objFields : Value → List (String × Value)
  | .vobj f => f
  | _ => []

/-- Property read on a `Value` (used only on objects by the library). -/
def getField (v : Value) (k : String) : Option Value :=
  lookupField (objFields v) k

/-- The template literal of `defineContext`:
`` `No${valueDescriptor ? ` ${valueDescriptor}` : ''} value was provided to ${descriptor}Context` ``.
The conditional tests JS truthiness of the string, so an omitted descriptor
and the empty string both contribute no extra word. -/
def contextErrorMessage (descriptor : String) (valueDescriptor : Option String) :
    String :=
  "No" ++
    (match valueDescriptor with
      | some s => if s = "" then "" else " " ++ s
      | none => "") ++
    " value was provided to " ++ descriptor ++ "Context"

/-- The accessor returned by `defineContext`, applied to the context value it
reads (the nearest supplied value, or the `null` default when none was
supplied): `if (!value) throw new Error(message); return value`. -/
def useDefinedContext (descriptor : String) (valueDescriptor : Option String)
    (value : Value) : Except String Value :=
  if truthy value then
    Except.ok value
  else
    Except.error (contextErrorMessage descriptor valueDescriptor)

/-- The pair of guarded-context accessors created by `defineProvider`:
`defineContext(descriptor, 'state')` and `defineContext(descriptor, 'dispatcher')`. -/
structure ProviderAccessors : Type where
  stateAccessor : Value → Except String Value
  dispatcherAccessor : Value → Except String Value

/-- `defineProvider(descriptor, useDefinedReducer)`: the two guarded contexts
it creates (the reducer hook plays no part in the accessors' behaviour). -/
def defineProvider (descriptor : String) : ProviderAccessors :=
  { stateAccessor := useDefinedContext descriptor (some "state")
    dispatcherAccessor := useDefinedContext descriptor (some "dispatcher") }

/-- C3: the guarded-context accessor errors exactly on falsy values (absent
means the `null` default, which is falsy), returns every truthy value
exactly, and the error message is `"No {v} value was provided to
{d}Context"`, with no extra word and single-space formatting when the value
descriptor is omitted. -/
theorem defineContext_guard (d : String) (vd : Option String) (value : Value) :
    (useDefinedContext d vd value = Except.error (contextErrorMessage d vd)
      ↔ truthy value = false)
    ∧ (truthy value = true → useDefinedContext d vd value = Except.ok value)
    ∧ contextErrorMessage d none = "No value was provided to " ++ d ++ "Context"
    ∧ (∀ w : String, w ≠ "" →
        contextErrorMessage d (some w)
          = "No " ++ w ++ " value was provided to " ++ d ++ "Context") := by
  refine ⟨?_, ?_, ?_, ?_⟩
  · constructor
    · intro h
      by_contra hb
      simp only [Bool.not_eq_false] at hb
      simp [useDefinedContext, hb] at h
    · intro h
      simp [useDefinedContext, h]
  · intro h
    simp [useDefinedContext, h]
  · simp only [contextErrorMessage]
    rfl
  · intro w hw
    simp only [contextErrorMessage, if_neg hw]
    have h2 : ("No" : String) ++ (" " ++ w) = "No " ++ w := by
      rw [← String.append_assoc]
      rfl
    rw [h2]

/-- Closed instantiation of `defineContext_guard` at concrete inputs. -/
theorem defineContext_guard_witness :
    useDefinedContext "Some" (some "such") Value.vnull
      = Except.error "No such value was provided to SomeContext"
    ∧ useDefinedContext "Some" (some "such") (Value.vbool true)
      = Except.ok (Value.vbool true) := by
  constructor
  · have h := (defineContext_guard "Some" (some "such") Value.vnull).1
    exact h.mpr rfl
  · exact (defineContext_guard "Some" (some "such") (Value.vbool true)).2.1 rfl

/-- C4: an explicitly supplied empty object `{}` is truthy, so the guarded
accessor returns it without error, for every descriptor pair. -/
theorem emptyObject_is_present (d : String) (vd : Option String) :
    useDefinedContext d vd (Value.vobj []) = Except.ok (Value.vobj []) := by
  simp [useDefinedContext, truthy]

/-- The `{action, args}` event consumed by a plain reducer. -/
structure ReducerEvent : Type where
  action : String
  args : List Value

/-- The `{reducer, action, args}` event consumed by a reducer hub. -/
structure HubEvent : Type where
  reducer : String
  action : String
  args : List Value

/-- A reduction `(prevState, ...args) => nextState` — the spread argument
list is received as a list of values. -/
def Reduction : Type := Value → List Value → Value

/-- A plain (action-keyed) reducer `(prevState, {action, args}) => nextState`. -/
def GenReducer : Type := Value → ReducerEvent → Value

/-- A hub reducer `(prevState, {reducer, action, args}) => nextState`. -/
def HubReducer : Type := Value → HubEvent → Value

/-- Lookup in a string-keyed map of functions (`reductions[action]`,
`reducers[reducer]`): first binding wins, `none` models the `undefined`
result of a missing property. -/
def lookupKey {α : Type} (entries : List (String × α)) (k : String) : Option α :=
  match entries with
  | [] => none
  | (k', v) :: rest => if k' = k then some v else lookupKey rest k

/-- The reducer built by `defineReduction(reductions)`:
`(prevState, {action, args}) => reductions[action]?.(prevState, ...args) ?? prevState`. -/
def reductionReducer (reductions : List (String × Reduction)) : GenReducer :=
  fun prevState ev =>
    match lookupKey reductions ev.action with
    | some red => nullishCoalesce (red prevState ev.args) prevState
    | none => prevState

/-- The hub built by `fuseReducers(reducers)`:
`(prevState, {action, reducer, args}) => reducers[reducer]?.(prevState, {action, args}) ?? prevState`. -/
def fuseReducers (reducers : List (String × GenReducer)) : HubReducer :=
  fun prevState ev =>
    match lookupKey reducers ev.reducer with
    | some r =>
        nullishCoalesce (r prevState { action := ev.action, args := ev.args }) prevState
    | none => prevState

/-- Destructuring `args: [value]`: the first argument, or `undefined` when
the argument list is empty. -/
def headArg : List Value → Value
  | [] => Value.vundef
  | v :: _ => v

/-- `modelReducer(prevModel, {action: key, args: [value]})`:
returns `{...prevModel, [key]: value}`. -/
def modelReducer : GenReducer :=
  fun prevModel ev =>
    Value.vobj (setField (objFields prevModel) ev.action (headArg ev.args))

/-- The runtime reducer of `reduceModel<T, X>()` from `src/index.ts`:
the excluded key set `X` is a purely type-level artifact, erased at runtime,
which we model as an explicit parameter the code never consults — the
returned reducer is `modelReducer` itself, with no runtime guard. -/
def reduceModel (_excludedKeys : List String) : GenReducer :=
  fun prevModel ev => modelReducer prevModel ev

/-- The hub built by `enhanceModel(reductions)`: fuses `modelReducer` under
hub-key `"model"` with `defineReduction(reductions).reducer` under hub-key
`"action"`. -/
def enhanceModel (reductions : List (String × Reduction)) : HubReducer :=
  fuseReducers [("model", modelReducer), ("action", reductionReducer reductions)]

/-- The runtime reducer inside `defineModelHub(reductions)`, which is
`defineReducerHub(enhanceModel(reductions))`: its `reducer` field is exactly
the `enhanceModel` hub. -/
def defineModelHubReducer (reductions : List (String × Reduction)) : HubReducer :=
  enhanceModel reductions

/-- The state container semantics of React's `useReducer`: dispatches issued
in sequence are applied in that sequence against successively derived
states, i.e. a left fold of the reducer over the event list. -/
def applyEvents (r : GenReducer) (init : Value) (events : List ReducerEvent) : Value :=
  events.foldl r init

/-- Scenario A's reduction: `add: (s, n) => ({...s, counter: s.counter + n})`.
Property access `s.counter` yields `undefined` when absent; `+` is used only
on numbers in this library. -/
def jsAdd : Value → Value → Value
  | .vnum a, .vnum b => .vnum (a + b)
  | _, _ => Value.vundef

/-- Property access `s.k` as an expression: the field's value, or
`undefined` when absent. -/
def getProp (v : Value) (k : String) : Value :=
  (getField v k).getD Value.vundef

/-- The `add` reduction of Scenario A. -/
def addReduction : Reduction :=
  fun s args =>
    Value.vobj (setField (objFields s) "counter" (jsAdd (getProp s "counter") (headArg args)))

lemma nullishCoalesce_self (s : Value) : nullishCoalesce s s = s := by
  unfold nullishCoalesce
  split <;> rfl

lemma nullishCoalesce_idem (x d : Value) :
    nullishCoalesce (nullishCoalesce x d) d = nullishCoalesce x d := by
  by_cases h : isNullish x = true <;> simp [nullishCoalesce, h, nullishCoalesce_self]

/-- C1: the reducer produced by `defineReduction` is a silent no-op on any
action name absent from the reduction map: it returns the previous state
unchanged rather than raising an error. -/
theorem defineReduction_miss (R : List (String × Reduction)) (s : Value)
    (ev : ReducerEvent) (h : lookupKey R ev.action = none) :
    reductionReducer R s ev = s := by
  simp [reductionReducer, h]

/-- Closed instantiation of `defineReduction_miss` at a concrete map, state
and unknown action. -/
theorem defineReduction_miss_witness :
    lookupKey [("add", addReduction)] "unknown" = none
    ∧ reductionReducer [("add", addReduction)] (Value.vnum 0)
        ⟨"unknown", []⟩ = Value.vnum 0 :=
  ⟨rfl, defineReduction_miss [("add", addReduction)] (Value.vnum 0) ⟨"unknown", []⟩ rfl⟩

/-- C2: the hub produced by `fuseReducers` is miss-silent at both addressing
levels: an unknown hub key returns the state unchanged, and a known hub key
whose sub-reducer is itself a no-op on the inner event (as every miss-silent
sub-reducer is on an action unknown to it) also returns the state unchanged. -/
theorem fuseReducers_miss (M : List (String × GenReducer)) (s : Value) (ev : HubEvent) :
    (lookupKey M ev.reducer = none → fuseReducers M s ev = s)
    ∧ (∀ r : GenReducer, lookupKey M ev.reducer = some r →
        r s ⟨ev.action, ev.args⟩ = s → fuseReducers M s ev = s) := by
  constructor
  · intro h
    simp [fuseReducers, h]
  · intro r h hr
    simp [fuseReducers, h, hr, nullishCoalesce_self]

/-- Closed instantiation of `fuseReducers_miss`: a hub over `{A, B}` with an
absent hub key `"C"`, and with hub key `"A"` but an action unknown to `A`. -/
theorem fuseReducers_miss_witness :
    fuseReducers [("A", reductionReducer [("add", addReduction)]), ("B", modelReducer)]
        (Value.vnum 7) ⟨"C", "add", []⟩ = Value.vnum 7
    ∧ fuseReducers [("A", reductionReducer [("add", addReduction)]), ("B", modelReducer)]
        (Value.vnum 7) ⟨"A", "unknown", []⟩ = Value.vnum 7 :=
  ⟨(fuseReducers_miss [("A", reductionReducer [("add", addReduction)]), ("B", modelReducer)]
      (Value.vnum 7) ⟨"C", "add", []⟩).1 rfl,
   (fuseReducers_miss [("A", reductionReducer [("add", addReduction)]), ("B", modelReducer)]
      (Value.vnum 7) ⟨"A", "unknown", []⟩).2
     (reductionReducer [("add", addReduction)]) rfl rfl⟩

/-- C7: for the reducer built from the single reduction `add` and initial
state `{counter: 0}`, dispatching `add(1)` twice in sequence (each applied
against the successively derived state) yields `counter = 2`. -/
theorem sequential_add_twice :
    getField (applyEvents (reductionReducer [("add", addReduction)])
        (Value.vobj [("counter", Value.vnum 0)])
        [⟨"add", [Value.vnum 1]⟩, ⟨"add", [Value.vnum 1]⟩]) "counter"
      = some (Value.vnum 2) := rfl

/-- C10: when the reduction (resp. sub-reducer) named by the event exists
but returns a nullish value (`null`/`undefined`), the `?? prevState`
fallback makes `defineReduction`'s reducer (resp. `fuseReducers`' hub)
return the previous state instead of the nullish result. -/
theorem nullish_result_falls_back (s : Value) :
    (∀ (R : List (String × Reduction)) (ev : ReducerEvent) (red : Reduction),
      lookupKey R ev.action = some red → isNullish (red s ev.args) = true →
      reductionReducer R s ev = s)
    ∧ (∀ (M : List (String × GenReducer)) (ev : HubEvent) (r : GenReducer),
      lookupKey M ev.reducer = some r →
      isNullish (r s ⟨ev.action, ev.args⟩) = true →
      fuseReducers M s ev = s) := by
  constructor
  · intro R ev red h hn
    simp [reductionReducer, h, nullishCoalesce, hn]
  · intro M ev r h hn
    simp [fuseReducers, h, nullishCoalesce, hn]

/-- A reduction that always returns `null`, for instantiating the nullish
fallback. -/
def constNullReduction : Reduction := fun _ _ => Value.vnull

/-- A sub-reducer that always returns `null`, for instantiating the nullish
fallback at the hub level. -/
def constNullSub : GenReducer := fun _ _ => Value.vnull

/-- Closed instantiation of `nullish_result_falls_back` at concrete
null-returning reduction and sub-reducer. -/
theorem nullish_result_falls_back_witness :
    reductionReducer [("nullify", constNullReduction)] (Value.vnum 3)
        ⟨"nullify", []⟩ = Value.vnum 3
    ∧ fuseReducers [("sub", constNullSub)] (Value.vnum 3)
        ⟨"sub", "a", []⟩ = Value.vnum 3 :=
  ⟨(nullish_result_falls_back (Value.vnum 3)).1 [("nullify", constNullReduction)]
      ⟨"nullify", []⟩ constNullReduction rfl rfl,
   (nullish_result_falls_back (Value.vnum 3)).2 [("sub", constNullSub)]
      ⟨"sub", "a", []⟩ constNullSub rfl rfl⟩

lemma lookupField_replaceKey (k : String) (v : Value) (q : String)
    (f : List (String × Value)) :
    lookupField (f.map (fun p => if p.1 = k then (k, v) else p)) q =
      if q = k then (lookupField f k).map (fun _ => v) else lookupField f q := by
  induction f with
  | nil =>
      by_cases hq : q = k <;> simp [lookupField, hq]
  | cons p rest ih =>
      obtain ⟨k', w⟩ := p
      simp only [List.map_cons]
      by_cases hk : k' = k
      · have hhead : (if ((k', w) : String × Value).1 = k then (k, v) else (k', w)) = (k, v) :=
          if_pos hk
        rw [hhead]
        by_cases hq : k' = q
        · have hqk : q = k := hq.symm.trans hk
          have hkq : k = q := hqk.symm
          simp only [lookupField, if_pos hkq, if_pos hqk, if_pos hk]
          rfl
        · have hkq : ¬ k = q := fun h => hq (hk.trans h)
          have hqk : ¬ q = k := fun h => hkq h.symm
          simp only [lookupField, if_neg hkq, if_neg hqk, if_neg hq]
          exact ih.trans (if_neg hqk)
      · have hhead : (if ((k', w) : String × Value).1 = k then (k, v) else (k', w)) = (k', w) :=
          if_neg hk
        rw [hhead]
        by_cases hq : k' = q
        · have hqk : ¬ q = k := fun h => hk (hq.trans h)
          simp only [lookupField, if_pos hq, if_neg hqk, if_neg hk]
        · simp only [lookupField, if_neg hq, if_neg hk]
          by_cases hqk : q = k
          · simp only [if_pos hqk] at ih ⊢
            exact ih
          · simp only [if_neg hqk] at ih ⊢
            exact ih

lemma lookupField_append (f₁ f₂ : List (String × Value)) (q : String) :
    lookupField (f₁ ++ f₂) q =
      match lookupField f₁ q with
      | some v => some v
      | none => lookupField f₂ q := by
  induction f₁ with
  | nil => simp [lookupField]
  | cons p rest ih =>
      obtain ⟨k', w⟩ := p
      by_cases h : k' = q <;> simp [lookupField, h, ih]

lemma lookupField_setField (f : List (String × Value)) (k : String) (v : Value)
    (q : String) :
    lookupField (setField f k v) q = if q = k then some v else lookupField f q := by
  unfold setField
  by_cases h : (lookupField f k).isSome
  · rw [if_pos h, lookupField_replaceKey]
    obtain ⟨w, hw⟩ := Option.isSome_iff_exists.mp h
    rw [hw]
    by_cases hq : q = k <;> simp [hq]
  · rw [if_neg h]
    have hnone : lookupField f k = none := Option.not_isSome_iff_eq_none.mp h
    rw [lookupField_append]
    by_cases hq : q = k
    · subst hq
      rw [hnone]
      simp [lookupField]
    · have hq' : ¬ k = q := fun h2 => hq h2.symm
      cases hfq : lookupField f q <;> simp [lookupField, hq, hq', hfq]

/-- C5: `modelReducer` returns a new record equal to the input with property
`k` replaced by `v` (field `k` reads back `v`, every other field reads back
as before), and on the concrete input of P5 it returns exactly
`{name: "x", counter: 5}`.  The input record is untouched — reductions are
pure functions in this embedding, so non-mutation is inherent. -/
theorem modelReducer_replace (f : List (String × Value)) (k : String) (v : Value)
    (_hk : (lookupField f k).isSome = true) :
    (∀ q : String,
      getField (modelReducer (Value.vobj f) ⟨k, [v]⟩) q
        = if q = k then some v else lookupField f q)
    ∧ modelReducer (Value.vobj [("name", Value.vstr "x"), ("counter", Value.vnum 0)])
        ⟨"counter", [Value.vnum 5]⟩
      = Value.vobj [("name", Value.vstr "x"), ("counter", Value.vnum 5)] := by
  constructor
  · intro q
    simp [modelReducer, getField, objFields, headArg, lookupField_setField]
  · rfl

/-- Closed instantiation of `modelReducer_replace` at the P5 input,
reading back both the replaced and an untouched field. -/
theorem modelReducer_replace_witness :
    getField (modelReducer
        (Value.vobj [("name", Value.vstr "x"), ("counter", Value.vnum 0)])
        ⟨"counter", [Value.vnum 5]⟩) "counter" = some (Value.vnum 5)
    ∧ getField (modelReducer
        (Value.vobj [("name", Value.vstr "x"), ("counter", Value.vnum 0)])
        ⟨"counter", [Value.vnum 5]⟩) "name" = some (Value.vstr "x") := by
  have h := (modelReducer_replace
    [("name", Value.vstr "x"), ("counter", Value.vnum 0)]
    "counter" (Value.vnum 5) rfl).1
  constructor
  · rw [h "counter"]
    rfl
  · rw [h "name"]
    rfl

/-- C9: the reducer returned by `reduceModel` carries no runtime guard for
the excluded key set: on an action whose key lies in the excluded set it
behaves exactly as `modelReducer` does on any key, performing the property
replacement with no error and no no-op branch. -/
theorem reduceModel_no_runtime_guard (X : List String) (k : String) (_hk : k ∈ X)
    (f : List (String × Value)) (v : Value) :
    reduceModel X (Value.vobj f) ⟨k, [v]⟩ = modelReducer (Value.vobj f) ⟨k, [v]⟩
    ∧ (∀ q : String,
      getField (reduceModel X (Value.vobj f) ⟨k, [v]⟩) q
        = if q = k then some v else lookupField f q) := by
  constructor
  · rfl
  · intro q
    simp [reduceModel, modelReducer, getField, objFields, headArg, lookupField_setField]

/-- Closed instantiation of `reduceModel_no_runtime_guard`: key `"id"` is
excluded, yet the reducer still replaces the `id` property. -/
theorem reduceModel_no_runtime_guard_witness :
    getField (reduceModel ["id"]
        (Value.vobj [("id", Value.vstr "0"), ("counter", Value.vnum 0)])
        ⟨"id", [Value.vstr "9"]⟩) "id" = some (Value.vstr "9") := by
  have h := (reduceModel_no_runtime_guard ["id"] "id" (by simp)
    [("id", Value.vstr "0"), ("counter", Value.vnum 0)] (Value.vstr "9")).2
  rw [h "id"]
  rfl

/-- A sub-reducer that returns `null` on every event, exhibiting the limit
of the hub's delegation law. -/
def constNullDelegate : GenReducer := fun _ _ => Value.vnull

/-- C6 counterexample: unconditional delegation fails.  For the hub fused
from the single sub-reducer `r ↦ constNullDelegate` (present under its hub
key) and state `0`, the hub returns the previous state `0`, while the named
sub-reducer applied to the same state and inner event returns `null` — so
the hub's result does not equal the sub-reducer's result. -/
theorem fuseReducers_delegation_cex :
    lookupKey [("r", constNullDelegate)] "r" = some constNullDelegate
    ∧ fuseReducers [("r", constNullDelegate)] (Value.vnum 0) ⟨"r", "a", []⟩
        = Value.vnum 0
    ∧ constNullDelegate (Value.vnum 0) ⟨"a", []⟩ = Value.vnull
    ∧ Value.vnum 0 ≠ Value.vnull :=
  ⟨rfl, rfl, rfl, fun h => Value.noConfusion h⟩

/-- C6 (amended): for a key `n` present in `M`, the hub delegates —
`hubReducer(s, {reducer: n, action, args})` equals
`M[n](s, {action, args})` whenever that result is non-nullish, and falls
back to the previous state `s` when it is nullish.  In particular the
`defineModelHub`/`enhanceModel` hub agrees unconditionally with
`modelReducer` under hub-key `"model"` and with the reduction-based reducer
under hub-key `"action"`. -/
theorem fuseReducers_delegation (M : List (String × GenReducer)) (s : Value)
    (ev : HubEvent) (r : GenReducer) (h : lookupKey M ev.reducer = some r) :
    (isNullish (r s ⟨ev.action, ev.args⟩) = false →
      fuseReducers M s ev = r s ⟨ev.action, ev.args⟩)
    ∧ (isNullish (r s ⟨ev.action, ev.args⟩) = true → fuseReducers M s ev = s)
    ∧ (∀ (Rd : List (String × Reduction)) (ms : Value) (mev : HubEvent),
        (mev.reducer = "model" →
          defineModelHubReducer Rd ms mev = modelReducer ms ⟨mev.action, mev.args⟩)
        ∧ (mev.reducer = "action" →
          defineModelHubReducer Rd ms mev
            = reductionReducer Rd ms ⟨mev.action, mev.args⟩)) := by
  refine ⟨?_, ?_, ?_⟩
  · intro hn
    simp [fuseReducers, h, nullishCoalesce, hn]
  · intro hn
    simp [fuseReducers, h, nullishCoalesce, hn]
  · intro Rd ms mev
    constructor
    · intro hm
      simp only [defineModelHubReducer, enhanceModel, fuseReducers, hm]
      have hl : lookupKey [("model", modelReducer), ("action", reductionReducer Rd)]
          "model" = some modelReducer := rfl
      rw [hl]
      simp [modelReducer, nullishCoalesce, isNullish]
    · intro hm
      simp only [defineModelHubReducer, enhanceModel, fuseReducers, hm]
      have hl : lookupKey [("model", modelReducer), ("action", reductionReducer Rd)]
          "action" = some (reductionReducer Rd) := rfl
      rw [hl]
      change nullishCoalesce (reductionReducer Rd ms ⟨mev.action, mev.args⟩) ms
        = reductionReducer Rd ms ⟨mev.action, mev.args⟩
      cases hl2 : lookupKey Rd mev.action with
      | none =>
          have hr : reductionReducer Rd ms ⟨mev.action, mev.args⟩ = ms := by
            simp [reductionReducer, hl2]
          rw [hr]
          exact nullishCoalesce_self ms
      | some red =>
          have hr : reductionReducer Rd ms ⟨mev.action, mev.args⟩
              = nullishCoalesce (red ms mev.args) ms := by
            simp [reductionReducer, hl2]
          rw [hr]
          exact nullishCoalesce_idem (red ms mev.args) ms

/-- Closed instantiation of `fuseReducers_delegation`: a present sub-reducer
with a non-nullish result is delegated to, one with a nullish result falls
back to the previous state, and the model hub agrees with its two
sub-reducers on concrete events. -/
theorem fuseReducers_delegation_witness :
    fuseReducers [("sub", modelReducer)]
        (Value.vobj [("counter", Value.vnum 0)])
        ⟨"sub", "counter", [Value.vnum 5]⟩
      = modelReducer (Value.vobj [("counter", Value.vnum 0)])
          ⟨"counter", [Value.vnum 5]⟩
    ∧ fuseReducers [("r", constNullDelegate)] (Value.vnum 0) ⟨"r", "a", []⟩
        = Value.vnum 0
    ∧ defineModelHubReducer [("add", addReduction)]
        (Value.vobj [("counter", Value.vnum 0)])
        ⟨"model", "counter", [Value.vnum 5]⟩
      = modelReducer (Value.vobj [("counter", Value.vnum 0)])
          ⟨"counter", [Value.vnum 5]⟩
    ∧ defineModelHubReducer [("add", addReduction)]
        (Value.vobj [("counter", Value.vnum 0)])
        ⟨"action", "add", [Value.vnum 1]⟩
      = reductionReducer [("add", addReduction)]
          (Value.vobj [("counter", Value.vnum 0)])
          ⟨"add", [Value.vnum 1]⟩ :=
  ⟨(fuseReducers_delegation [("sub", modelReducer)]
      (Value.vobj [("counter", Value.vnum 0)])
      ⟨"sub", "counter", [Value.vnum 5]⟩ modelReducer rfl).1 rfl,
   (fuseReducers_delegation [("r", constNullDelegate)] (Value.vnum 0)
      ⟨"r", "a", []⟩ constNullDelegate rfl).2.1 rfl,
   ((fuseReducers_delegation [("r", constNullDelegate)] (Value.vnum 0)
      ⟨"r", "a", []⟩ constNullDelegate rfl).2.2 [("add", addReduction)]
      (Value.vobj [("counter", Value.vnum 0)])
      ⟨"model", "counter", [Value.vnum 5]⟩).1 rfl,
   ((fuseReducers_delegation [("r", constNullDelegate)] (Value.vnum 0)
      ⟨"r", "a", []⟩ constNullDelegate rfl).2.2 [("add", addReduction)]
      (Value.vobj [("counter", Value.vnum 0)])
      ⟨"action", "add", [Value.vnum 1]⟩).2 rfl⟩

/-- C8: `defineProvider` wires its two guarded contexts with value
descriptors `"state"` and `"dispatcher"`, so reading either accessor where
no Provider has supplied a value (the context's `null` default) raises the
guarded-context error with the corresponding message; with descriptor
`"Some"` the messages are exactly `"No state value was provided to
SomeContext"` and `"No dispatcher value was provided to SomeContext"`. -/
theorem defineProvider_messages (d : String) :
    (defineProvider d).stateAccessor Value.vnull
      = Except.error ("No state value was provided to " ++ d ++ "Context")
    ∧ (defineProvider d).dispatcherAccessor Value.vnull
      = Except.error ("No dispatcher value was provided to " ++ d ++ "Context")
    ∧ (defineProvider "Some").stateAccessor Value.vnull
      = Except.error "No state value was provided to SomeContext"
    ∧ (defineProvider "Some").dispatcherAccessor Value.vnull
      = Except.error "No dispatcher value was provided to SomeContext" :=
  ⟨rfl, rfl, rfl, rfl⟩
